import Mathlib

/-!
Shallow embedding of `charly_post.py`, a FreeCAD post-processor that turns a
tree of toolpath commands into G-code for the Charly robot.

Modelling choices, uniform throughout:

* FreeCAD quantities are exact rationals in FreeCAD's internal units
  (millimetres for lengths, millimetres per second for velocities, seconds
  for times).  `Units.Quantity(v, Length).getValueAs(fmt)` becomes the
  explicit conversion `lengthValueAs fmt v`, and likewise for velocities;
  `float(quantity)` is the identity (the internal-unit value).
* Python strings become `String`; the dictionary `c.Parameters` becomes an
  association list `List (String × ℚ)` with `List.lookup`.
* The module-level mutable globals (`LINENR`, `CURRENT_X/Y/Z`,
  `MOTION_MODE`, `DRILL_RETRACT_MODE`, `START_OR_M6`, `UNITS`,
  `UNIT_FORMAT`, `UNIT_SPEED_FORMAT`) become the record `MState`, threaded
  explicitly.  The configuration globals set by `processArguments`
  (plus the customization constants `MODAL` and `OUTPUT_TOOL_CHANGE`)
  become the record `Cfg`, constant during a run.
* Fallible code is modelled with `Except String`: the `KeyError` raised by
  `drill_translate` on a missing parameter, and `export`'s abort on an
  object that is not a path.
* `format(x, '.3f')` becomes `fmtFixed 3 x` (decimal fixed-point, round to
  nearest; Python resolves exact ties on the binary double, which none of
  the inputs used here hit).
-/

/- Batteries marks the `Rat` arithmetic operations `@[irreducible]`, which
blocks the evaluation of closed terms inside `decide`/`rfl` proofs; restore
the default transparency for this file. -/
attribute [local semireducible] Rat.inv Rat.mul Rat.add Rat.sub

/-- Equality of `Except` results is decidable when both components are. -/
instance {e a : Type} [DecidableEq e] [DecidableEq a] : DecidableEq (Except e a)
  | .error x, .error y =>
    if h : x = y then .isTrue (by rw [h]) else .isFalse (by intro hc; cases hc; exact h rfl)
  | .error _, .ok _ => .isFalse (by intro hc; cases hc)
  | .ok _, .error _ => .isFalse (by intro hc; cases hc)
  | .ok x, .ok y =>
    if h : x = y then .isTrue (by rw [h]) else .isFalse (by intro hc; cases hc; exact h rfl)

namespace CharlyPost

/-! ### Python string helpers -/

/-- Python `str.strip()` / list-join helper: is this an ASCII whitespace
character stripped by `strip()`? -/
def isPyWhite (c : Char) : Bool :=
  c == ' ' || c == '\t' || c == '\n' || c == '\x0d'

/-- Python `s.strip()` (whitespace from both ends). -/
def pyStrip (s : String) : String :=
  String.mk (((s.data.dropWhile isPyWhite).reverse.dropWhile isPyWhite).reverse)

/-- Does `p` occur at the head of `s`? (helper for the substring test). -/
def listHasPref : List Char → List Char → Bool
  | [], _ => true
  | _ :: _, [] => false
  | a :: p, b :: s => a == b && listHasPref p s

/-- Helper for `strContains`: does `pat` occur in some suffix? -/
def listContainsSub (pat : List Char) : List Char → Bool
  | [] => listHasPref pat []
  | s@(_ :: rest) => listHasPref pat s || listContainsSub pat rest

/-- Python `pat in s` substring test (used on the preamble text). -/
def strContains (s pat : String) : Bool :=
  listContainsSub pat.data s.data

/-- Helper for `splitlinesKeepends`, accumulating the current line reversed. -/
def splitlinesAux (cur : List Char) : List Char → List String
  | [] => if cur.isEmpty then [] else [String.mk cur.reverse]
  | c :: rest =>
    if c == '\n' then String.mk (cur.reverse ++ ['\n']) :: splitlinesAux [] rest
    else splitlinesAux (c :: cur) rest

/-- Python `s.splitlines(True)` restricted to `\n` line ends (the only line
end occurring in this program's text constants). -/
def splitlinesKeepends (s : String) : List String :=
  splitlinesAux [] s.data

/-- Python `list.insert(i, a)`: `l[:i] + [a] + l[i:]`, the index clamping to
the list length (`take`/`drop` clamp the same way). -/
def pyInsert {α : Type} (i : ℕ) (a : α) (l : List α) : List α :=
  l.take i ++ a :: l.drop i

/-! ### Numeric formatting -/

/-- Round to the nearest integer (ties upward; Python's `format` resolves
exact ties on the binary double, ties-to-even — no input below hits a tie). -/
def ratRound (q : ℚ) : ℤ := ⌊q + 1 / 2⌋

/-- Left-pad a digit string with zeros to width `k`. -/
def padZeros (k : ℕ) (s : String) : String :=
  String.mk (List.replicate (k - s.length) '0') ++ s

/-- Python `format(x, '.<prec>f')`: fixed-point decimal with `prec` digits. -/
def fmtFixed (prec : ℕ) (q : ℚ) : String :=
  let n : ℤ := ratRound (q * (10 : ℚ) ^ prec)
  let base : ℕ := (10 : ℕ) ^ prec
  let sgn : String := if n < 0 then "-" else ""
  let ip : ℕ := n.natAbs / base
  let fp : ℕ := n.natAbs % base
  sgn ++ toString ip ++ (if prec = 0 then "" else "." ++ padZeros prec (toString fp))

/-- Python `str(v)` on a parameter value.  FreeCAD parameter values are
floats; all values this development evaluates `str` on are integral, where
`str(2.0) = "2.0"`.  (Non-integral values print num/den, a placeholder the
theorems never exercise.) -/
def pyStr (q : ℚ) : String :=
  if q.den = 1 then toString q.num ++ ".0" else toString q.num ++ "/" ++ toString q.den

/-! ### Unit conversion (FreeCAD `Units.Quantity.getValueAs`) -/

/-- Length conversion: internal unit is mm; `getValueAs('in')` divides by
25.4, `getValueAs('mm')` is the identity. -/
def lengthValueAs (ufmt : String) (v : ℚ) : ℚ :=
  if ufmt = "in" then v / (127 / 5) else v

/-- Velocity conversion: internal unit is mm/s; `getValueAs('mm/min')`
multiplies by 60, `getValueAs('in/min')` also divides by 25.4. -/
def speedValueAs (usfmt : String) (v : ℚ) : ℚ :=
  if usfmt = "in/min" then v * 60 / (127 / 5) else v * 60

/-! ### Data model -/

/-- One machine instruction (`Path.Command`): a code and a parameter map. -/
structure Command where
  name : String
  parameters : List (String × ℚ)
deriving Repr, DecidableEq

/-- The toolpath tree handed to `export`: a compound (`hasattr "Group"`),
a simple path (`hasattr "Path"`), or a non-path object such as stock. -/
inductive PathNode where
  | compound (label : String) (children : List PathNode)
  | leaf (label : String) (commands : List Command)
  | nonPath (label : String)
deriving Repr

/-- Label of a node (`obj.Label` / `obj.Name`). -/
def PathNode.label : PathNode → String
  | .compound l _ => l
  | .leaf l _ => l
  | .nonPath l => l

/-- Configuration globals: the six set by `processArguments` plus the
customization constants `OUTPUT_TOOL_CHANGE` and `MODAL` (both `True` in the
source). -/
structure Cfg where
  output_header : Bool
  output_comments : Bool
  output_line_numbers : Bool
  precision : ℕ
  preamble : String
  postamble : String
  output_tool_change : Bool
  modal : Bool
deriving Repr, DecidableEq

/-- The module-level mutable globals of `charly_post.py`. -/
structure MState where
  linenr : ℕ
  current_X : ℚ
  current_Y : ℚ
  current_Z : ℚ
  motion_mode : String
  drill_retract_mode : String
  start_or_M6 : Bool
  units : String
  unit_format : String
  unit_speed_format : String
deriving Repr, DecidableEq

/-- The globals' initial values (source lines 64-99: `LINENR = 10`,
`CURRENT_X/Y/Z = 0`, `MOTION_MODE = 'G90'`, `DRILL_RETRACT_MODE = 'G98'`,
`START_OR_M6 = True`, `UNITS = 'G71'`, mm units). -/
def initialState : MState :=
  ⟨10, 0, 0, 0, "G90", "G98", true, "G71", "mm", "mm/min"⟩

/-- The source's default configuration values. -/
def defaultCfg : Cfg :=
  ⟨true, true, true, 3, "", "M5\nM2\n", true, true⟩

/-! ### Dialect policy constants (source lines 61-121) -/

def LINEINCR : ℕ := 10

def COMMAND_SPACE : String := " "

def MOTION_COMMANDS : List String :=
  ["G0", "G00", "G1", "G01", "G2", "G02", "G3", "G03"]

def RAPID_MOVES : List String := ["G0", "G00"]

def MODAL_COMMANDS : List String := ["G0", "G00", "G1", "G01"]

def SUPPRESS_COMMANDS : List String :=
  ["G98", "G99", "G80", "G17", "G53", "G54", "G55", "G56", "G57", "G58", "G59"]

def PRE_OPERATION : String := ""

def POST_OPERATION : String := ""

def TOOL_CHANGE : String := ""

/-- `params` in `parse` (source line 302): the canonical emission order. -/
def PARAMS_ORDER : List String :=
  ["X", "Y", "Z", "A", "B", "I", "J", "F", "S", "T", "Q", "R", "L", "P"]

/-! ### Line numbering and line assembly -/

/-- `linenumber()` (source lines 267-274): returns the prefix for the next
line and the updated `LINENR`. -/
def linenumber (cfg : Cfg) (n : ℕ) : String × ℕ :=
  if cfg.output_line_numbers then ("N" ++ toString n ++ " ", n + LINEINCR) else ("", n)

/-- Append one numbered chunk to an output buffer, threading `LINENR` inside
an `MState` (every `out += linenumber() + content` site in `parse`/`export`). -/
def lnSt (cfg : Cfg) (st : MState) (out content : String) : MState × String :=
  let p := linenumber cfg st.linenr
  ({ st with linenr := p.2 }, out ++ p.1 ++ content)

/-- Append one numbered chunk to a `(buffer, LINENR)` accumulator (every
`trBuff += linenumber() + content` site in `drill_translate`). -/
def lnPush (cfg : Cfg) (acc : String × ℕ) (content : String) : String × ℕ :=
  let p := linenumber cfg acc.2
  (acc.1 ++ p.1 ++ content, p.2)

/-- `format_outstring` (source lines 277-284): join the tokens, each
followed by `COMMAND_SPACE`, then `strip()`. -/
def format_outstring (strTbl : List String) : String :=
  pyStrip ((strTbl.map (fun w => w ++ COMMAND_SPACE)).foldl (fun a b => a ++ b) "")

/-! ### Parameter emission (source lines 350-371) -/

/-- The token(s) emitted for one present parameter, per the class-specific
rules of the params loop. -/
def paramToken (cfg : Cfg) (st : MState) (command param : String) (v : ℚ) : List String :=
  if param == "I" then
    ["I" ++ fmtFixed cfg.precision (lengthValueAs st.unit_format (v + st.current_X))]
  else if param == "J" then
    ["J" ++ fmtFixed cfg.precision (lengthValueAs st.unit_format (v + st.current_Y))]
  else if param == "F" then
    if RAPID_MOVES.contains command then []
    else if 0 < speedValueAs st.unit_speed_format v then
      ["F" ++ fmtFixed cfg.precision (speedValueAs st.unit_speed_format v)]
    else []
  else if ["T", "H", "D", "S", "P", "L"].contains param then
    [param ++ pyStr v]
  else if ["A", "B", "C"].contains param then
    [param ++ fmtFixed cfg.precision v]
  else
    [param ++ fmtFixed cfg.precision (lengthValueAs st.unit_format v)]

/-- The params loop: walk `PARAMS_ORDER`, appending tokens for the
parameters present on the command. -/
def paramTokens (cfg : Cfg) (st : MState) (command : String)
    (ps : List (String × ℚ)) : List String :=
  PARAMS_ORDER.foldl (fun acc param =>
    match ps.lookup param with
    | some v => acc ++ paramToken cfg st command param v
    | none => acc) []

/-! ### Drill-cycle translation (`drill_translate`, source lines 443-522) -/

/-- Python `params[k]` on the drill-cycle parameter dictionary: a missing
key raises `KeyError`. -/
def getParam (ps : List (String × ℚ)) (k : String) : Except String ℚ :=
  match ps.lookup k with
  | some v => .ok v
  | none => .error ("KeyError: " ++ k)

/-- The comment block emitted at the top of `drill_translate` when comments
are enabled (source lines 455-461), paired with the `LINENR` it leaves. -/
def drillCommentAcc (cfg : Cfg) (st : MState) (outstring : List String)
    (cmd : String) : String × ℕ :=
  if cfg.output_comments then
    let acc := lnPush cfg ("", st.linenr)
      ("(Translated " ++ cmd ++ " drilling cycle to G0/G1 moves)\n")
    lnPush cfg acc (format_outstring ("(" :: (outstring ++ [")"])) ++ "\n")
  else ("", st.linenr)

/-- The final feed/retract pair of the peck loop (source lines 515-516):
one feed-move to the exact drill depth, then one rapid-retract. -/
def peckFinal (cfg : Cfg) (ufmt : String) (prec : ℕ) (drill_Z RETRACT_Z : ℚ)
    (spdTxt : String) (acc : String × ℕ) : String × ℕ :=
  let acc := lnPush cfg acc
    ("G1 Z" ++ fmtFixed prec (lengthValueAs ufmt drill_Z) ++ " F" ++ spdTxt ++ "\n")
  lnPush cfg acc
    ("G0 Z" ++ fmtFixed prec (lengthValueAs ufmt RETRACT_Z) ++ "\n")

/-- The peck loop of `drill_translate` (source lines 508-517), with an
explicit fuel argument: while the next stop is strictly above the drill
depth, feed to it, retract, and step down; otherwise emit the final pair at
the exact drill depth.  `peckLoop` below instantiates the fuel with the
loop's exact iteration count, at which the guard is already false whenever
the fuel runs out, so the fuel never cuts the loop short (the unfolding
lemma `peckLoop_unfold` proves this).  The source's `while 1` loop never
terminates when `drill_Step ≤ 0`; the `0 < drill_Step` conjunct in the
guard makes the model take the final branch there instead, and every
theorem about the peck cycle assumes a positive step. -/
def peckLoopF (cfg : Cfg) (ufmt : String) (prec : ℕ) (drill_Z RETRACT_Z drill_Step : ℚ)
    (spdTxt : String) : ℕ → ℚ → (String × ℕ) → String × ℕ
  | 0, _, acc => peckFinal cfg ufmt prec drill_Z RETRACT_Z spdTxt acc
  | fuel + 1, next_Stop_Z, acc =>
    if drill_Z < next_Stop_Z ∧ 0 < drill_Step then
      let acc := lnPush cfg acc
        ("G1 Z" ++ fmtFixed prec (lengthValueAs ufmt next_Stop_Z) ++ " F" ++ spdTxt ++ "\n")
      let acc := lnPush cfg acc
        ("G0 Z" ++ fmtFixed prec (lengthValueAs ufmt RETRACT_Z) ++ "\n")
      peckLoopF cfg ufmt prec drill_Z RETRACT_Z drill_Step spdTxt fuel
        (next_Stop_Z - drill_Step) acc
    else peckFinal cfg ufmt prec drill_Z RETRACT_Z spdTxt acc

/-- The number of iterations of the peck loop before the final pair. -/
def peckFuel (drill_Z drill_Step next_Stop_Z : ℚ) : ℕ :=
  (⌈(next_Stop_Z - drill_Z) / drill_Step⌉).toNat

/-- The peck loop (source lines 508-517), entered at `next_Stop_Z`. -/
def peckLoop (cfg : Cfg) (ufmt : String) (prec : ℕ) (drill_Z RETRACT_Z drill_Step : ℚ)
    (spdTxt : String) (next_Stop_Z : ℚ) (acc : String × ℕ) : String × ℕ :=
  peckLoopF cfg ufmt prec drill_Z RETRACT_Z drill_Step spdTxt
    (peckFuel drill_Z drill_Step next_Stop_Z) next_Stop_Z acc

/-- The emission phase of `drill_translate` (source lines 489-522), taking
the already-computed absolute targets and the effective retract plane:
optional `G90` forcing, preliminary positioning, the cutting phase, and the
`G91` restore.  Faithfully to source line 520, the `G91` restore is emitted
WITHOUT a trailing newline. -/
def drillEmit (cfg : Cfg) (st : MState) (cmd : String)
    (drill_X drill_Y drill_Z RETRACT_Z drill_Speed drill_Step drill_DwellTime : ℚ)
    (acc : String × ℕ) : String × ℕ :=
  let prec := cfg.precision
  let ufmt := st.unit_format
  let acc := if st.motion_mode = "G91" then lnPush cfg acc ("G90" ++ "\n") else acc
  let acc := if st.current_Z < RETRACT_Z then
      lnPush cfg acc ("G0 Z" ++ fmtFixed prec (lengthValueAs ufmt RETRACT_Z) ++ "\n")
    else acc
  let acc := lnPush cfg acc
    ("G0 X" ++ fmtFixed prec (lengthValueAs ufmt drill_X)
      ++ " Y" ++ fmtFixed prec (lengthValueAs ufmt drill_Y) ++ "\n")
  let acc := if RETRACT_Z < st.current_Z then
      lnPush cfg acc ("G0 Z" ++ fmtFixed prec (lengthValueAs ufmt st.current_Z) ++ "\n")
    else acc
  let spdTxt := fmtFixed 2 (speedValueAs st.unit_speed_format drill_Speed)
  let acc :=
    if cmd = "G81" ∨ cmd = "G82" then
      let acc := lnPush cfg acc
        ("G1 Z" ++ fmtFixed prec (lengthValueAs ufmt drill_Z) ++ " F" ++ spdTxt ++ "\n")
      let acc := if cmd = "G82" then lnPush cfg acc ("G4 P" ++ pyStr drill_DwellTime ++ "\n")
        else acc
      lnPush cfg acc ("G0 Z" ++ fmtFixed prec (lengthValueAs ufmt RETRACT_Z) ++ "\n")
    else
      peckLoop cfg ufmt prec drill_Z RETRACT_Z drill_Step spdTxt (RETRACT_Z - drill_Step) acc
  if st.motion_mode = "G91" then lnPush cfg acc "G91" else acc

/-- `drill_translate` (source lines 443-522): comment the original cycle,
compute absolute targets (KeyError on a missing parameter), apply the old-Z
retract clamp, fetch the feed rate and the cycle-specific step/dwell, then
emit.  Returns the translated buffer and the final `LINENR`. -/
def drill_translate (cfg : Cfg) (st : MState) (outstring : List String)
    (cmd : String) (params : List (String × ℚ)) : Except String (String × ℕ) := do
  let acc := drillCommentAcc cfg st outstring cmd
  let pX ← getParam params "X"
  let pY ← getParam params "Y"
  let pZ ← getParam params "Z"
  let pR ← getParam params "R"
  let drill_X := if st.motion_mode = "G90" then pX else st.current_X + pX
  let drill_Y := if st.motion_mode = "G90" then pY else st.current_Y + pY
  let drill_Z := if st.motion_mode = "G90" then pZ else st.current_Z + pZ
  let RETRACT_Z0 := if st.motion_mode = "G90" then pR else st.current_Z + pR
  let RETRACT_Z := if st.drill_retract_mode = "G98" ∧ RETRACT_Z0 ≤ st.current_Z then
      st.current_Z
    else RETRACT_Z0
  let drill_Speed ← getParam params "F"
  let drill_Step ← if cmd = "G83" then getParam params "Q" else pure 0
  let drill_DwellTime ← if cmd = "G82" then getParam params "P" else pure 0
  pure (drillEmit cfg st cmd drill_X drill_Y drill_Z RETRACT_Z
    drill_Speed drill_Step drill_DwellTime acc)

/-! ### Per-command processing (`parse`, command body, source lines 319-438) -/

/-- Process one command of a leaf path: code translation, tool-change
handling, modal suppression, parameter emission, motion bookkeeping (with
the forced-full-coordinates injection), mode tracking, drill-cycle
dispatch, the `message` pseudo-command, code suppression, and the final
numbered line.  Takes and returns the local `lastcommand` and the
accumulated `out` buffer. -/
def processCommand (cfg : Cfg) (st0 : MState) (lastcommand : Option String)
    (out0 : String) (c : Command) : Except String (MState × Option String × String) := do
  -- lines 321-329: code translation of the Charly unit codes
  let command := if c.name = "G21" then "G71" else if c.name = "G20" then "G70" else c.name
  let outstring : List String := [command]
  -- lines 331-342: tool change
  let (st, out, outstring) :=
    if command = "M6" ∨ command = "M06" then
      let p := if cfg.output_comments then lnSt cfg st0 out0 "(begin toolchange)\n"
        else (st0, out0)
      let q :=
        if cfg.output_tool_change = false then (p.1, p.2, "(" :: (outstring ++ [")"]))
        else
          let r := (splitlinesKeepends TOOL_CHANGE).foldl
            (fun (a : MState × String) line => lnSt cfg a.1 a.2 line) p
          (r.1, r.2, outstring)
      ({ q.1 with start_or_M6 := true }, q.2.1, q.2.2)
    else (st0, out0, outstring)
  -- lines 344-347: modal suppression (`outstring.pop(0)`)
  let outstring :=
    if cfg.modal ∧ lastcommand = some command ∧ MODAL_COMMANDS.contains command then
      outstring.drop 1
    else outstring
  -- lines 349-371: parameter emission in canonical order
  let outstring := outstring ++ paramTokens cfg st command c.parameters
  -- lines 376-411: motion bookkeeping
  let (st, outstring) :=
    if MOTION_COMMANDS.contains command then
      let outstring := if c.parameters.isEmpty then [] else outstring
      let st := match c.parameters.lookup "X" with
        | some v => { st with current_X := v }
        | none => st
      let st := match c.parameters.lookup "Y" with
        | some v => { st with current_Y := v }
        | none => st
      let st := match c.parameters.lookup "Z" with
        | some v => { st with current_Z := v }
        | none => st
      if st.start_or_M6 then
        let x_ok := (c.parameters.lookup "X").isSome
        let y_ok := (c.parameters.lookup "Y").isSome
        let z_ok := (c.parameters.lookup "Z").isSome
        -- lines 405-410: the injected tokens use `float(CURRENT_*)`, the
        -- INTERNAL-unit value, with no `getValueAs` conversion
        let outstring := if x_ok then outstring
          else pyInsert 1 ("X" ++ fmtFixed cfg.precision st.current_X) outstring
        let outstring := if y_ok then outstring
          else pyInsert 2 ("Y" ++ fmtFixed cfg.precision st.current_Y) outstring
        let outstring := if z_ok then outstring
          else pyInsert 3 ("Z" ++ fmtFixed cfg.precision st.current_Z) outstring
        ({ st with start_or_M6 := false }, outstring)
      else (st, outstring)
    else (st, outstring)
  -- lines 413-417: mode tracking
  let st := if command = "G98" ∨ command = "G99" then
      { st with drill_retract_mode := command }
    else st
  let st := if command = "G90" ∨ command = "G91" then
      { st with motion_mode := command }
    else st
  -- lines 419-424: drill-cycle dispatch
  let (st, out, outstring) ←
    if command = "G81" ∨ command = "G82" ∨ command = "G83" then do
      let r ← drill_translate cfg st outstring command c.parameters
      pure ({ st with linenr := r.2 }, out ++ r.1, ([] : List String))
    else pure (st, out, outstring)
  -- lines 426-431: the `message` pseudo-command.  With comments disabled
  -- the source executes `out = []`: the accumulated buffer is replaced by
  -- an EMPTY LIST (erasing all previously produced output of this parse;
  -- subsequent string appends extend the list character-wise and the
  -- caller's `gcode += parse(obj)` then fails on the changed type).
  -- Modelled as clearing the buffer.
  let (out, outstring) :=
    if command = "message" then
      if cfg.output_comments = false then ("", outstring)
      else (out, outstring.drop 1)
    else (out, outstring)
  -- lines 432-434: suppressed codes are wrapped as comments
  let outstring := if SUPPRESS_COMMANDS.contains command then "(" :: (outstring ++ [")"])
    else outstring
  -- lines 436-438: prepend a line number and append a newline
  let (st, out) :=
    if outstring.length ≥ 1 then lnSt cfg st out (format_outstring outstring ++ "\n")
    else (st, out)
  pure (st, some command, out)

/-! ### Tree walking (`parse`, source lines 287-440) and `export` (168-264) -/

/-- Process the commands of one leaf path in order, threading state, the
local `lastcommand`, and the accumulated buffer. -/
def parseCmds (cfg : Cfg) (st : MState) (lastc : Option String) (out : String) :
    List Command → Except String (MState × String)
  | [] => .ok (st, out)
  | c :: rest => do
    let r ← processCommand cfg st lastc out c
    parseCmds cfg r.1 r.2.1 r.2.2 rest

mutual

/-- `parse` (source lines 287-440): a compound gets a wrapping comment and
concatenates its children's output; a leaf gets a wrapping comment and
processes its commands; a non-path object yields nothing. -/
def parse (cfg : Cfg) (st : MState) (node : PathNode) : Except String (MState × String) :=
  match node with
  | .compound lbl children =>
    let p := if cfg.output_comments then lnSt cfg st "" ("(compound: " ++ lbl ++ ")\n")
      else (st, "")
    parseGroup cfg p.1 children p.2
  | .leaf lbl cmds =>
    let p := if cfg.output_comments then lnSt cfg st "" ("(Path: " ++ lbl ++ ")\n")
      else (st, "")
    parseCmds cfg p.1 none p.2 cmds
  | .nonPath _ => .ok (st, "")

/-- The child loop of the compound branch (`for p in pathobj.Group`). -/
def parseGroup (cfg : Cfg) (st : MState) (nodes : List PathNode) (out : String) :
    Except String (MState × String) :=
  match nodes with
  | [] => .ok (st, out)
  | n :: rest => do
    let r ← parse cfg st n
    parseGroup cfg r.1 rest (out ++ r.2)

end

/-- Does the object satisfy `hasattr(obj, "Path")` (the top-level check in
`export`)?  Compounds and simple paths do; stock-like objects do not. -/
def hasPath : PathNode → Bool
  | .compound _ _ => true
  | .leaf _ _ => true
  | .nonPath _ => false

/-- The body of `export` after argument processing (source lines 173-257):
header, preamble with units/motion-mode bookkeeping, the per-object loop
around `parse`, and the postamble.  `now` stands for
`str(datetime.datetime.now())`, an external input.  Returns the generated
text (the editor pass-through and the file write are external
collaborators); an object without a path aborts the run. -/
def exportRun (cfg : Cfg) (objectslist : List PathNode) (ms : MState) (now : String) :
    Except String (String × MState) := do
  let st := ms
  let gcode := ""
  -- lines 181-185: header
  let (st, gcode) :=
    if cfg.output_header then
      let p := lnSt cfg st gcode "(Exported by FreeCAD)\n"
      let p := lnSt cfg p.1 p.2 "(Post Processor: charly_post)\n"
      lnSt cfg p.1 p.2 ("(Output Time: " ++ now ++ ")\n")
    else (st, gcode)
  -- lines 187-192: preamble and the units line (emitted with the INCOMING
  -- `UNITS` value, before the preamble is scanned)
  let (st, gcode) :=
    if cfg.output_comments then lnSt cfg st gcode "(begin preamble)\n" else (st, gcode)
  let (st, gcode) := (splitlinesKeepends cfg.preamble).foldl
    (fun (a : MState × String) line => lnSt cfg a.1 a.2 line) (st, gcode)
  let (st, gcode) := lnSt cfg st gcode (st.units ++ "\n")
  -- lines 194-200: did the preamble change MOTION_MODE?
  let (st, gcode) :=
    if strContains cfg.preamble "G90" then ({ st with motion_mode := "G90" }, gcode)
    else if strContains cfg.preamble "G91" then ({ st with motion_mode := "G91" }, gcode)
    else lnSt cfg st gcode (st.motion_mode ++ "\n")
  -- lines 201-218: did the preamble change UNITS?
  let (st, gcode) :=
    if strContains cfg.preamble "G71" then
      ({ st with units := "G71", unit_format := "mm", unit_speed_format := "mm/min" }, gcode)
    else if strContains cfg.preamble "G21" then
      ({ st with units := "G71", unit_format := "mm", unit_speed_format := "mm/min" }, gcode)
    else if strContains cfg.preamble "G70" then
      ({ st with units := "G70", unit_format := "in", unit_speed_format := "in/min" }, gcode)
    else if strContains cfg.preamble "G20" then
      ({ st with units := "G70", unit_format := "in", unit_speed_format := "in/min" }, gcode)
    else lnSt cfg st gcode (st.units ++ "\n")
  -- lines 220-239: per-object loop
  let (st, gcode) ← objectslist.foldlM
    (fun (a : MState × String) (obj : PathNode) => do
      let (st, gcode) := a
      if hasPath obj = false then
        Except.error ("Error : " ++ obj.label
          ++ " is not a path. Please select only path and Compounds.")
      else do
        let (st, gcode) :=
          if cfg.output_comments then
            lnSt cfg st gcode ("(begin operation: " ++ obj.label ++ ")\n")
          else (st, gcode)
        let (st, gcode) := (splitlinesKeepends PRE_OPERATION).foldl
          (fun (a : MState × String) line => lnSt cfg a.1 a.2 line) (st, gcode)
        let r ← parse cfg st obj
        let (st, gcode) := (r.1, gcode ++ r.2)
        let (st, gcode) :=
          if cfg.output_comments then
            lnSt cfg st gcode ("(finish operation: " ++ obj.label ++ ")\n")
          else (st, gcode)
        let (st, gcode) := (splitlinesKeepends POST_OPERATION).foldl
          (fun (a : MState × String) line => lnSt cfg a.1 a.2 line) (st, gcode)
        pure (st, gcode))
    (st, gcode)
  -- lines 241-245: postamble
  let (st, gcode) :=
    if cfg.output_comments then lnSt cfg st gcode "(begin postamble)\n" else (st, gcode)
  let (st, gcode) := (splitlinesKeepends cfg.postamble).foldl
    (fun (a : MState × String) line => lnSt cfg a.1 a.2 line) (st, gcode)
  pure (gcode, st)

/-! ### Shared concrete fixtures for the theorems -/

/-- Configuration with header, comments and line numbers all disabled
(reachable via `--no-header --no-comments --no-line-numbers`). -/
def cfgNC : Cfg :=
  { defaultCfg with
      output_header := false
      output_comments := false
      output_line_numbers := false }

/-! ### C1 -/

/-- C1: evaluating the code at the failing input.  With comments disabled, a
leaf whose commands are `G1 X10` followed by the `message` pseudo-command
does NOT leave the previously accumulated output unchanged: the `G1` line
alone yields `"G1 X10.000\n"`, but adding the `message` command yields just
`"message\n"` — the accumulated buffer is discarded (source line 428,
`out = []`) and the message line itself is emitted into the fresh buffer,
contradicting the claim that the command is skipped without output and the
prior output kept. -/
theorem C1_message_discards_buffer :
    parse cfgNC { initialState with start_or_M6 := false }
        (.leaf "L" [⟨"G1", [("X", 10)]⟩]) =
      .ok ({ initialState with start_or_M6 := false, current_X := 10 }, "G1 X10.000\n")
    ∧ parse cfgNC { initialState with start_or_M6 := false }
        (.leaf "L" [⟨"G1", [("X", 10)]⟩, ⟨"message", []⟩]) =
      .ok ({ initialState with start_or_M6 := false, current_X := 10 }, "message\n")
    ∧ strContains "message\n" "G1 X10.000" = false := by
  refine ⟨by decide, by decide, by decide⟩

/-! ### C2 -/

/-- C2: evaluating the code at the failing input.  In relative mode (G91)
with the cached `CURRENT_X = 5`, processing the motion command `G1 X2`
caches the raw parameter value `2` — not the absolute-equivalent
coordinate `5 + 2 = 7` required by the claim (source line 387 assigns the
parameter unconverted, regardless of motion mode). -/
theorem C2_relative_position_cache :
    (processCommand cfgNC
        { initialState with motion_mode := "G91", current_X := 5, start_or_M6 := false }
        none "" ⟨"G1", [("X", 2)]⟩).map (fun r => r.1.current_X) = .ok 2
    ∧ ((5 : ℚ) + 2 = 2) = False := by
  refine ⟨by decide, by simp⟩

/-- String append is associative (helper used throughout the proofs). -/
theorem str_append_assoc (a b c : String) : a ++ b ++ c = a ++ (b ++ c) := by
  apply congrArg String.mk
  show (a.data ++ b.data) ++ c.data = a.data ++ (b.data ++ c.data)
  exact List.append_assoc a.data b.data c.data

/-- Reducing a bind on a successful `Except` value (helper). -/
theorem exceptOkBind {e a b : Type} (x : a) (k : a → Except e b) :
    (Except.ok x >>= k : Except e b) = k x := rfl

/-- Reducing a bind on a failed `Except` value (helper). -/
theorem exceptErrorBind {e a b : Type} (err : e) (k : a → Except e b) :
    ((Except.error err : Except e a) >>= k) = Except.error err := rfl

/-! ### C3 -/

/-- A command parameter map holding only coordinates: the axes among X, Y, Z
given by the three options. -/
def coordParams (ox oy oz : Option ℚ) : List (String × ℚ) :=
  (match ox with | some v => [("X", v)] | none => []) ++
  (match oy with | some v => [("Y", v)] | none => []) ++
  (match oz with | some v => [("Z", v)] | none => [])

/-- The token a forced-full-coordinates motion line carries for one axis:
the unit-converted parameter when the axis is present, otherwise the cached
position in the machine's INTERNAL length unit (mm), unconverted — exactly
what source lines 405-410 emit via `float(CURRENT_*)`. -/
def injTok (prec : ℕ) (ufmt : String) (ax : String) (cur : ℚ) : Option ℚ → String
  | some v => ax ++ fmtFixed prec (lengthValueAs ufmt v)
  | none => ax ++ fmtFixed prec cur

/-- State with the output unit set to inches and the cached X position at
25.4 mm (= 1 inch), force-full-coordinates pending. -/
def stInch : MState :=
  { initialState with
      start_or_M6 := true
      current_X := 254 / 10
      units := "G70"
      unit_format := "in"
      unit_speed_format := "in/min" }

/-- C3 counterexample: with inch output (G70) and the cached X position
25.4 mm, the motion command `G1 Z-25.4mm` right after a tool change gets the
missing X axis injected as `X25.400` — the INTERNAL millimetre value — not
`X1.000`, the cached position formatted in the output length unit as the
claim states (the present Z axis is converted: `Z-1.000`). -/
theorem C3_cex :
    processCommand cfgNC stInch (some "M6") "" ⟨"G1", [("Z", -254 / 10)]⟩ =
      .ok ({ stInch with current_Z := -254 / 10, start_or_M6 := false },
        some "G1", "G1 X25.400 Y0.000 Z-1.000\n")
    ∧ "X" ++ fmtFixed 3 (lengthValueAs "in" (254 / 10)) = "X1.000"
    ∧ strContains "G1 X25.400 Y0.000 Z-1.000\n" "X1.000" = false := by
  refine ⟨by decide, by decide, by decide⟩

set_option maxHeartbeats 2000000 in
/-- C3 (amended): after a tool change, the next motion command's emitted
line carries all three axis tokens X, Y, Z in canonical order even when
only some were specified; an axis that is present is formatted in the
output length unit, while each injected (missing) axis carries the position
cached immediately before the tool change formatted at the configured
precision in the machine's INTERNAL length unit (millimetres), without
conversion to the output length unit. -/
theorem C3_forced_axes (cfg : Cfg) (st : MState) (out : String) (name : String)
    (ox oy oz : Option ℚ)
    (hname : MOTION_COMMANDS.contains name = true)
    (hflag : st.start_or_M6 = true)
    (hne : ¬(ox = none ∧ oy = none ∧ oz = none)) :
    processCommand cfg st (some "M6") out ⟨name, coordParams ox oy oz⟩ =
      .ok ({ st with
              linenr := (linenumber cfg st.linenr).2
              current_X := ox.getD st.current_X
              current_Y := oy.getD st.current_Y
              current_Z := oz.getD st.current_Z
              start_or_M6 := false },
        some name,
        out ++ (linenumber cfg st.linenr).1 ++ format_outstring
          [name, injTok cfg.precision st.unit_format "X" st.current_X ox,
            injTok cfg.precision st.unit_format "Y" st.current_Y oy,
            injTok cfg.precision st.unit_format "Z" st.current_Z oz] ++ "\n") := by
  simp only [MOTION_COMMANDS, List.contains_cons, List.contains_nil, Bool.or_eq_true,
    beq_iff_eq, Bool.false_eq_true, or_false] at hname
  rcases ox with _ | vx <;> rcases oy with _ | vy <;> rcases oz with _ | vz <;>
    (simp at hne <;> try exact hne.elim) <;>
    (rcases hname with rfl | rfl | rfl | rfl | rfl | rfl | rfl | rfl <;>
      (simp [processCommand, coordParams, paramTokens, paramToken, PARAMS_ORDER, injTok,
        pyInsert, lnSt, hflag, MOTION_COMMANDS, MODAL_COMMANDS, RAPID_MOVES,
        SUPPRESS_COMMANDS, List.lookup, str_append_assoc] <;> rfl))

/-- C3 witness: the amended theorem applied at a concrete input (the
counterexample configuration, axis Z present, X and Y injected). -/
theorem C3_witness :
    MOTION_COMMANDS.contains "G1" = true ∧ stInch.start_or_M6 = true ∧
    processCommand cfgNC stInch (some "M6") "" ⟨"G1", coordParams none none (some (-254 / 10))⟩ =
      .ok ({ stInch with
              linenr := (linenumber cfgNC stInch.linenr).2
              current_X := Option.getD none stInch.current_X
              current_Y := Option.getD none stInch.current_Y
              current_Z := Option.getD (some (-254 / 10)) stInch.current_Z
              start_or_M6 := false },
        some "G1",
        "" ++ (linenumber cfgNC stInch.linenr).1 ++ format_outstring
          ["G1", injTok cfgNC.precision stInch.unit_format "X" stInch.current_X none,
            injTok cfgNC.precision stInch.unit_format "Y" stInch.current_Y none,
            injTok cfgNC.precision stInch.unit_format "Z" stInch.current_Z (some (-254 / 10))]
          ++ "\n") :=
  ⟨by decide, by decide,
    C3_forced_axes cfgNC stInch "" "G1" none none (some (-254 / 10))
      (by decide) (by decide) (by simp)⟩

/-! ### C5 -/

/-- C5 counterexample: with the force-full-coordinates flag pending (true at
the start of a run and right after any tool change), a motion command with
an empty parameter mapping DOES produce an output line — the three injected
axis tokens, with no code token (`G0` with no parameters at the initial
state). -/
theorem C5_cex :
    processCommand cfgNC { initialState with start_or_M6 := true } none "" ⟨"G0", []⟩ =
      .ok ({ initialState with start_or_M6 := false }, some "G0", "X0.000 Y0.000 Z0.000\n")
    ∧ "X0.000 Y0.000 Z0.000\n" ≠ "" := by
  refine ⟨by decide, by decide⟩

/-- C5 (amended): a command whose translated code is in the motion-code set
and whose parameter mapping is empty produces no output line and leaves the
state unchanged, PROVIDED the force-full-coordinates flag is not pending;
when the flag is pending (start of run or immediately after a tool change),
a line consisting solely of the three injected axis tokens is emitted. -/
theorem C5_empty_motion (cfg : Cfg) (st : MState) (last : Option String)
    (out : String) (name : String)
    (hname : MOTION_COMMANDS.contains name = true)
    (hflag : st.start_or_M6 = false) :
    processCommand cfg st last out ⟨name, []⟩ = .ok (st, some name, out) := by
  simp only [MOTION_COMMANDS, List.contains_cons, List.contains_nil, Bool.or_eq_true,
    beq_iff_eq, Bool.false_eq_true, or_false] at hname
  rcases hname with rfl | rfl | rfl | rfl | rfl | rfl | rfl | rfl <;>
    (simp [processCommand, paramTokens, paramToken, PARAMS_ORDER, lnSt, hflag,
      MOTION_COMMANDS, MODAL_COMMANDS, RAPID_MOVES, SUPPRESS_COMMANDS, List.lookup] <;> rfl)

/-- C5 witness: the amended theorem applied at a concrete input. -/
theorem C5_witness :
    MOTION_COMMANDS.contains "G1" = true
    ∧ processCommand cfgNC { initialState with start_or_M6 := false } (some "G1") "prior"
        ⟨"G1", []⟩ =
      .ok ({ initialState with start_or_M6 := false }, some "G1", "prior") :=
  ⟨by decide,
    C5_empty_motion cfgNC { initialState with start_or_M6 := false } (some "G1") "prior" "G1"
      (by decide) (by decide)⟩

/-! ### C4 -/

/-- Count of (non-overlapping is not needed here: any) occurrences of `pat`
at suffix positions of a character list. -/
def countSubAux (pat : List Char) : List Char → ℕ
  | [] => if listHasPref pat [] then 1 else 0
  | s@(_ :: rest) => (if listHasPref pat s then 1 else 0) + countSubAux pat rest

/-- Number of occurrences of the (nonempty) pattern `pat` in `s`. -/
def strCount (s pat : String) : ℕ :=
  countSubAux pat.data s.data

/-- The intermediate stops of the peck loop, mirrored from `peckLoopF` with
the same fuel discipline: the Z values the loop feed-moves to before the
final feed at the exact drill depth. -/
def peckStopsF (drill_Z drill_Step : ℚ) : ℕ → ℚ → List ℚ
  | 0, _ => []
  | fuel + 1, next =>
    if drill_Z < next ∧ 0 < drill_Step then
      next :: peckStopsF drill_Z drill_Step fuel (next - drill_Step)
    else []

/-- The stops of the peck loop entered at `next`. -/
def peckStops (drill_Z drill_Step next : ℚ) : List ℚ :=
  peckStopsF drill_Z drill_Step (peckFuel drill_Z drill_Step next) next

/-- Render one feed/retract pair per stop (exactly the two `trBuff`
appends of the loop body, source lines 511-512). -/
def peckRender (cfg : Cfg) (ufmt : String) (prec : ℕ) (RETRACT_Z : ℚ) (spdTxt : String)
    (stops : List ℚ) (acc : String × ℕ) : String × ℕ :=
  stops.foldl (fun a s =>
    lnPush cfg
      (lnPush cfg a ("G1 Z" ++ fmtFixed prec (lengthValueAs ufmt s) ++ " F" ++ spdTxt ++ "\n"))
      ("G0 Z" ++ fmtFixed prec (lengthValueAs ufmt RETRACT_Z) ++ "\n")) acc

/-- The fueled peck loop renders exactly one feed/retract pair per stop,
then the final pair. -/
theorem peckLoopF_eq_render (cfg : Cfg) (ufmt : String) (prec : ℕ)
    (dZ rZ step : ℚ) (spd : String) :
    ∀ (fuel : ℕ) (next : ℚ) (acc : String × ℕ),
      peckLoopF cfg ufmt prec dZ rZ step spd fuel next acc =
        peckFinal cfg ufmt prec dZ rZ spd
          (peckRender cfg ufmt prec rZ spd (peckStopsF dZ step fuel next) acc) := by
  intro fuel
  induction fuel with
  | zero => intro next acc; rfl
  | succ m ih =>
    intro next acc
    by_cases h : dZ < next ∧ 0 < step
    · simp only [peckLoopF, peckStopsF, if_pos h, peckRender, List.foldl_cons]
      exact ih (next - step) _
    · simp only [peckLoopF, peckStopsF, if_neg h, peckRender, List.foldl_nil]

/-- With a positive step, the fuel computed for `next` is one more than the
fuel for `next - step` whenever the loop guard holds. -/
theorem peckFuel_succ (dZ step next : ℚ) (hs : 0 < step) (hlt : dZ < next) :
    peckFuel dZ step next = peckFuel dZ step (next - step) + 1 := by
  unfold peckFuel
  have hne : step ≠ 0 := ne_of_gt hs
  have hq : (next - step - dZ) / step = (next - dZ) / step - 1 := by
    field_simp
    ring
  have hpos : 0 < ⌈(next - dZ) / step⌉ := Int.ceil_pos.mpr (div_pos (by linarith) hs)
  rw [hq, Int.ceil_sub_one]
  omega

/-- With a positive step the fueled stop list satisfies the source loop's
unguarded recursion: the fuel never cuts the loop short. -/
theorem peckStops_unfold (dZ step next : ℚ) (hs : 0 < step) :
    peckStops dZ step next =
      if dZ < next then next :: peckStops dZ step (next - step) else [] := by
  by_cases hlt : dZ < next
  · rw [if_pos hlt]
    unfold peckStops
    rw [peckFuel_succ dZ step next hs hlt]
    simp only [peckStopsF]
    rw [if_pos (And.intro hlt hs)]
  · rw [if_neg hlt]
    unfold peckStops
    cases hfuel : peckFuel dZ step next with
    | zero => rfl
    | succ m =>
      simp only [peckStopsF]
      exact if_neg (fun hc => hlt hc.1)

/-- Every intermediate stop is strictly above the drill depth. -/
theorem peckStopsF_gt (dZ step : ℚ) :
    ∀ (fuel : ℕ) (next s : ℚ), s ∈ peckStopsF dZ step fuel next → dZ < s := by
  intro fuel
  induction fuel with
  | zero => intro next s hs; simp [peckStopsF] at hs
  | succ m ih =>
    intro next s hs
    by_cases h : dZ < next ∧ 0 < step
    · rw [peckStopsF, if_pos h] at hs
      rcases List.mem_cons.mp hs with rfl | hs'
      · exact h.1
      · exact ih (next - step) s hs'
    · rw [peckStopsF, if_neg h] at hs
      simp at hs

set_option maxRecDepth 4000 in
/-- C4 (amended): the peck expansion starting from
`nextStop = retractZ − step` emits, for each stop of the strictly
descending stop sequence (each stop strictly above the final drill Z,
stepping down by `step`), one feed-move to the stop followed by one
rapid-retract to retract Z, and after the loop exactly one final feed-move
to exactly the drill Z followed by one rapid-retract — so the bottom depth
is always reached exactly regardless of step divisibility.  The example
R=5, Z=−12, Q=4 yields feed/retract pairs at Z = 1, −3, −7, −11 and then
the final pair exactly at Z=−12: FIVE feed moves total (not three as the
claim's example states). -/
theorem C4_peck :
    (∀ (cfg : Cfg) (ufmt : String) (prec : ℕ) (dZ rZ step : ℚ) (spd : String)
        (next : ℚ) (acc : String × ℕ),
      peckLoop cfg ufmt prec dZ rZ step spd next acc =
        peckFinal cfg ufmt prec dZ rZ spd
          (peckRender cfg ufmt prec rZ spd (peckStops dZ step next) acc))
    ∧ (∀ dZ step next : ℚ, 0 < step →
        peckStops dZ step next =
          if dZ < next then next :: peckStops dZ step (next - step) else [])
    ∧ (∀ dZ step next s : ℚ, s ∈ peckStops dZ step next → dZ < s)
    ∧ drill_translate cfgNC
        { initialState with current_Z := 5, drill_retract_mode := "G99", start_or_M6 := false }
        [] "G83" [("X", 10), ("Y", 20), ("Z", -12), ("R", 5), ("F", 1), ("Q", 4)] =
      .ok ("G0 X10.000 Y20.000\nG1 Z1.000 F60.00\nG0 Z5.000\nG1 Z-3.000 F60.00\nG0 Z5.000\nG1 Z-7.000 F60.00\nG0 Z5.000\nG1 Z-11.000 F60.00\nG0 Z5.000\nG1 Z-12.000 F60.00\nG0 Z5.000\n",
        10)
    ∧ peckStops (-12) 4 (5 - 4) = [1, -3, -7, -11] := by
  refine ⟨fun cfg ufmt prec dZ rZ step spd next acc => peckLoopF_eq_render _ _ _ _ _ _ _ _ _ _,
    peckStops_unfold, fun dZ step next s hs => peckStopsF_gt dZ step _ next s hs,
    by decide, by decide⟩

/-- C4 witness: the loop characterization and the unguarded-recursion
equation applied at the example input (step Q = 4 > 0). -/
theorem C4_witness :
    ((0 : ℚ) < 4)
    ∧ peckStops (-12) 4 1 = (if (-12 : ℚ) < 1 then 1 :: peckStops (-12) 4 (1 - 4) else []) :=
  ⟨by decide, C4_peck.2.1 (-12) 4 1 (by decide)⟩

set_option maxRecDepth 4000 in
/-- C4 counterexample: at the claim's own example input (R=5, Z=−12, Q=4,
current Z at the retract plane, R-plane retract mode), the expansion
contains FIVE feed moves (`G1 Z...` lines), not three as the claim states. -/
theorem C4_cex :
    drill_translate cfgNC
        { initialState with current_Z := 5, drill_retract_mode := "G99", start_or_M6 := false }
        [] "G83" [("X", 10), ("Y", 20), ("Z", -12), ("R", 5), ("F", 1), ("Q", 4)] =
      .ok ("G0 X10.000 Y20.000\nG1 Z1.000 F60.00\nG0 Z5.000\nG1 Z-3.000 F60.00\nG0 Z5.000\nG1 Z-7.000 F60.00\nG0 Z5.000\nG1 Z-11.000 F60.00\nG0 Z5.000\nG1 Z-12.000 F60.00\nG0 Z5.000\n",
        10)
    ∧ strCount "G0 X10.000 Y20.000\nG1 Z1.000 F60.00\nG0 Z5.000\nG1 Z-3.000 F60.00\nG0 Z5.000\nG1 Z-7.000 F60.00\nG0 Z5.000\nG1 Z-11.000 F60.00\nG0 Z5.000\nG1 Z-12.000 F60.00\nG0 Z5.000\n"
        "G1 Z" = 5
    ∧ (5 : ℕ) ≠ 3 := by
  refine ⟨by decide, by decide, by decide⟩

/-! ### C6 -/

/-- C6: when the retract mode is old-Z (G98) and the current Z is at or
above the absolute-equivalent retract reference, `drill_translate` hands
the emission phase `st.current_Z` as the retract plane — the retract Z used
throughout the expansion is clamped to the current Z, so the tool never
retracts below where it already is (source lines 479-480). -/
theorem C6_retract_clamp (cfg : Cfg) (st : MState) (os : List String) (cmd : String)
    (x y z r f q p : ℚ)
    (h98 : st.drill_retract_mode = "G98")
    (hclamp : (if st.motion_mode = "G90" then r else st.current_Z + r) ≤ st.current_Z) :
    drill_translate cfg st os cmd
        [("X", x), ("Y", y), ("Z", z), ("R", r), ("F", f), ("Q", q), ("P", p)] =
      .ok (drillEmit cfg st cmd
        (if st.motion_mode = "G90" then x else st.current_X + x)
        (if st.motion_mode = "G90" then y else st.current_Y + y)
        (if st.motion_mode = "G90" then z else st.current_Z + z)
        st.current_Z f (if cmd = "G83" then q else 0) (if cmd = "G82" then p else 0)
        (drillCommentAcc cfg st os cmd)) := by
  by_cases h83 : cmd = "G83" <;> by_cases h82 : cmd = "G82" <;>
    · first
      | (rw [h83] at h82; exact absurd h82 (by decide))
      | simp [drill_translate, getParam, List.lookup, exceptOkBind, h83, h82, h98, hclamp]

/-- C6 witness: the clamp theorem applied at a concrete input (absolute
mode, current Z = 4 above the retract reference R = 3): the emission phase
receives retract Z = 4, the current Z. -/
theorem C6_witness :
    ({ initialState with current_Z := 4 } : MState).drill_retract_mode = "G98"
    ∧ (if ({ initialState with current_Z := 4 } : MState).motion_mode = "G90" then (3 : ℚ)
        else ({ initialState with current_Z := 4 } : MState).current_Z + 3) ≤
      ({ initialState with current_Z := 4 } : MState).current_Z
    ∧ drill_translate cfgNC { initialState with current_Z := 4 } [] "G81"
        [("X", 1), ("Y", 2), ("Z", -5), ("R", 3), ("F", 1), ("Q", 0), ("P", 0)] =
      .ok (drillEmit cfgNC { initialState with current_Z := 4 } "G81"
        (if ({ initialState with current_Z := 4 } : MState).motion_mode = "G90" then (1 : ℚ)
          else ({ initialState with current_Z := 4 } : MState).current_X + 1)
        (if ({ initialState with current_Z := 4 } : MState).motion_mode = "G90" then (2 : ℚ)
          else ({ initialState with current_Z := 4 } : MState).current_Y + 2)
        (if ({ initialState with current_Z := 4 } : MState).motion_mode = "G90" then (-5 : ℚ)
          else ({ initialState with current_Z := 4 } : MState).current_Z + -5)
        ({ initialState with current_Z := 4 } : MState).current_Z 1
        (if "G81" = "G83" then (0 : ℚ) else 0) (if "G81" = "G82" then (0 : ℚ) else 0)
        (drillCommentAcc cfgNC { initialState with current_Z := 4 } [] "G81")) :=
  ⟨by decide, by decide,
    C6_retract_clamp cfgNC { initialState with current_Z := 4 } [] "G81"
      1 2 (-5) 3 1 0 0 (by decide) (by decide)⟩

/-! ### C7 -/

/-- Does the string end with a newline character? -/
def endsWithNewline (s : String) : Bool :=
  s.data.getLast? == some '\n'

/-- C7: evaluating the code at the failing input.  A G81 cycle processed in
relative mode (G91) produces an expansion whose final emitted piece is the
`G91` motion-mode restore WITHOUT a trailing newline (source line 520), so
the returned text does not consist of newline-terminated lines: the next
line emitted by `parse` is glued onto it (`G91G0 X1.000`). -/
theorem C7_missing_newline :
    drill_translate cfgNC { initialState with motion_mode := "G91", start_or_M6 := false } []
        "G81" [("X", 1), ("Y", 1), ("Z", -5), ("R", 3), ("F", 1)] =
      .ok ("G90\nG0 Z3.000\nG0 X1.000 Y1.000\nG1 Z-5.000 F60.00\nG0 Z3.000\nG91", 10)
    ∧ endsWithNewline "G90\nG0 Z3.000\nG0 X1.000 Y1.000\nG1 Z-5.000 F60.00\nG0 Z3.000\nG91" =
      false
    ∧ parse cfgNC { initialState with start_or_M6 := false }
        (.leaf "L" [⟨"G91", []⟩,
          ⟨"G81", [("X", 1), ("Y", 1), ("Z", -5), ("R", 3), ("F", 1)]⟩,
          ⟨"G0", [("X", 1)]⟩]) =
      .ok ({ initialState with current_X := 1, motion_mode := "G91", start_or_M6 := false },
        "G91\nG90\nG0 Z3.000\nG0 X1.000 Y1.000\nG1 Z-5.000 F60.00\nG0 Z3.000\nG91G0 X1.000\n")
    ∧ strContains
        "G91\nG90\nG0 Z3.000\nG0 X1.000 Y1.000\nG1 Z-5.000 F60.00\nG0 Z3.000\nG91G0 X1.000\n"
        "G91G0 X1.000" = true := by
  refine ⟨by decide, by decide, by decide, by decide⟩

/-! ### C8 -/

/-- The coordinate tokens of a command whose parameters are the axes among
X, Y, Z, in canonical order, unit-converted and formatted. -/
def coordToks (prec : ℕ) (ufmt : String) (ox oy oz : Option ℚ) : List String :=
  (match ox with | some v => ["X" ++ fmtFixed prec (lengthValueAs ufmt v)] | none => []) ++
  (match oy with | some v => ["Y" ++ fmtFixed prec (lengthValueAs ufmt v)] | none => []) ++
  (match oz with | some v => ["Z" ++ fmtFixed prec (lengthValueAs ufmt v)] | none => [])

set_option maxHeartbeats 1000000 in
/-- C8: with modality enabled, a command whose translated code equals the
previously processed command's translated code and is in the modal-code
set is emitted with the code token omitted, the line carrying exactly the
command's parameter tokens in canonical order. -/
theorem C8_modal (cfg : Cfg) (st : MState) (out : String) (name : String)
    (ox oy oz : Option ℚ)
    (hm : cfg.modal = true)
    (hname : MODAL_COMMANDS.contains name = true)
    (hflag : st.start_or_M6 = false)
    (hne : ¬(ox = none ∧ oy = none ∧ oz = none)) :
    processCommand cfg st (some name) out ⟨name, coordParams ox oy oz⟩ =
      .ok ({ st with
              linenr := (linenumber cfg st.linenr).2
              current_X := ox.getD st.current_X
              current_Y := oy.getD st.current_Y
              current_Z := oz.getD st.current_Z },
        some name,
        out ++ (linenumber cfg st.linenr).1 ++ format_outstring
          (coordToks cfg.precision st.unit_format ox oy oz) ++ "\n") := by
  simp only [ MODAL_COMMANDS, List.contains_cons, List.contains_nil, Bool.or_eq_true,
    beq_iff_eq, Bool.false_eq_true, or_false] at hname
  rcases ox with _ | vx <;> rcases oy with _ | vy <;> rcases oz with _ | vz <;>
    (simp at hne <;> try exact hne.elim) <;>
    (rcases hname with rfl | rfl | rfl | rfl <;>
      (simp [processCommand, coordParams, coordToks, paramTokens, paramToken, PARAMS_ORDER,
        pyInsert, lnSt, hflag, hm, MOTION_COMMANDS, MODAL_COMMANDS, RAPID_MOVES,
        SUPPRESS_COMMANDS, List.lookup, str_append_assoc] <;> rfl))

/-- C8 witness: the modal theorem applied at a concrete input (two
consecutive `G1` commands; the second line is `X2.000 Y3.000`, code
omitted). -/
theorem C8_witness :
    cfgNC.modal = true ∧ MODAL_COMMANDS.contains "G1" = true
    ∧ processCommand cfgNC { initialState with start_or_M6 := false } (some "G1") "prior"
        ⟨"G1", coordParams (some 2) (some 3) none⟩ =
      .ok ({ ({ initialState with start_or_M6 := false } : MState) with
              linenr := (linenumber cfgNC 10).2
              current_X := Option.getD (some 2) 0
              current_Y := Option.getD (some 3) 0
              current_Z := Option.getD none 0 },
        some "G1",
        "prior" ++ (linenumber cfgNC 10).1 ++ format_outstring
          (coordToks cfgNC.precision "mm" (some 2) (some 3) none) ++ "\n") :=
  ⟨by decide, by decide,
    C8_modal cfgNC { initialState with start_or_M6 := false } "prior" "G1"
      (some 2) (some 3) none (by decide) (by decide) (by decide) (by simp)⟩

/-! ### C9 -/

/-- Does the drilling-cycle command lack one of its required parameters
(target X, Y, Z; retract reference R; feed F; step Q for G83; dwell P for
G82)? -/
def requiredMissing (c : Command) : Bool :=
  (c.parameters.lookup "X").isNone || (c.parameters.lookup "Y").isNone ||
  (c.parameters.lookup "Z").isNone || (c.parameters.lookup "R").isNone ||
  (c.parameters.lookup "F").isNone ||
  (c.name == "G83" && (c.parameters.lookup "Q").isNone) ||
  (c.name == "G82" && (c.parameters.lookup "P").isNone)

/-- The error raised for the first missing required parameter, in the
source's access order (X, Y, Z, R, F, then Q or P). -/
def missingErr (c : Command) : String :=
  "KeyError: " ++
  (if (c.parameters.lookup "X").isNone then "X"
   else if (c.parameters.lookup "Y").isNone then "Y"
   else if (c.parameters.lookup "Z").isNone then "Z"
   else if (c.parameters.lookup "R").isNone then "R"
   else if (c.parameters.lookup "F").isNone then "F"
   else if c.name = "G83" then "Q" else "P")

/-- C9: a drilling-cycle command (G81/G82/G83) lacking a required parameter
makes the expansion fail with an error and no partial cycle output: the
`drill_translate` call fails, the per-command processing fails with the
same error, and a whole export containing the command fails with that
error, surfacing it to the caller. -/
theorem C9_missing_param (c : Command) (cfg : Cfg) (st : MState) (os : List String)
    (last : Option String) (out : String) (ms : MState) (now lbl : String)
    (h1 : c.name = "G81" ∨ c.name = "G82" ∨ c.name = "G83")
    (h2 : requiredMissing c = true) :
    drill_translate cfg st os c.name c.parameters = .error (missingErr c)
    ∧ processCommand cfg st last out c = .error (missingErr c)
    ∧ exportRun cfg [.leaf lbl [c]] ms now = .error (missingErr c) := by
  obtain ⟨name, ps⟩ := c
  simp only at h1 h2 ⊢
  have hA : ∀ (cfg : Cfg) (st : MState) (os : List String),
      drill_translate cfg st os name ps = .error (missingErr ⟨name, ps⟩) := by
    intro cfg st os
    rcases hx : ps.lookup "X" with _ | vx
    · simp [drill_translate, getParam, missingErr, hx, exceptErrorBind]
    rcases hy : ps.lookup "Y" with _ | vy
    · simp [drill_translate, getParam, missingErr, hx, hy, exceptOkBind, exceptErrorBind]
    rcases hz : ps.lookup "Z" with _ | vz
    · simp [drill_translate, getParam, missingErr, hx, hy, hz, exceptOkBind, exceptErrorBind]
    rcases hr : ps.lookup "R" with _ | vr
    · simp [drill_translate, getParam, missingErr, hx, hy, hz, hr, exceptOkBind,
        exceptErrorBind]
    rcases hf : ps.lookup "F" with _ | vf
    · simp [drill_translate, getParam, missingErr, hx, hy, hz, hr, hf, exceptOkBind,
        exceptErrorBind]
    rcases h1 with h | h | h <;> subst h
    · simp [requiredMissing, hx, hy, hz, hr, hf] at h2
    · rcases hp : ps.lookup "P" with _ | vp
      · simp [drill_translate, getParam, missingErr, hx, hy, hz, hr, hf, hp,
          exceptOkBind, exceptErrorBind]
      · simp [requiredMissing, hx, hy, hz, hr, hf, hp] at h2
    · rcases hq : ps.lookup "Q" with _ | vq
      · simp [drill_translate, getParam, missingErr, hx, hy, hz, hr, hf, hq,
          exceptOkBind, exceptErrorBind]
      · simp [requiredMissing, hx, hy, hz, hr, hf, hq] at h2
  have hB : ∀ (cfg : Cfg) (st : MState) (last : Option String) (out : String),
      processCommand cfg st last out ⟨name, ps⟩ = .error (missingErr ⟨name, ps⟩) := by
    intro cfg st last out
    rcases h1 with h | h | h <;> subst h <;>
      simp [processCommand, hA, exceptErrorBind, MOTION_COMMANDS, MODAL_COMMANDS,
        SUPPRESS_COMMANDS]
  have hC : ∀ (cfg : Cfg) (st : MState) (lbl : String),
      parse cfg st (.leaf lbl [⟨name, ps⟩]) = .error (missingErr ⟨name, ps⟩) := by
    intro cfg st lbl
    simp [parse, parseCmds, hB, exceptErrorBind]
  refine ⟨hA cfg st os, hB cfg st last out, ?_⟩
  simp [exportRun, hC, exceptErrorBind, hasPath, List.foldlM]

/-- C9 witness: the theorem applied to a concrete G83 command missing its
required peck step Q (X, Y, Z, R, F present). -/
theorem C9_witness :
    ((⟨"G83", [("X", 1), ("Y", 2), ("Z", -5), ("R", 3), ("F", 1)]⟩ : Command).name = "G81"
      ∨ (⟨"G83", [("X", 1), ("Y", 2), ("Z", -5), ("R", 3), ("F", 1)]⟩ : Command).name = "G82"
      ∨ (⟨"G83", [("X", 1), ("Y", 2), ("Z", -5), ("R", 3), ("F", 1)]⟩ : Command).name = "G83")
    ∧ requiredMissing ⟨"G83", [("X", 1), ("Y", 2), ("Z", -5), ("R", 3), ("F", 1)]⟩ = true
    ∧ (drill_translate cfgNC initialState []
          (⟨"G83", [("X", 1), ("Y", 2), ("Z", -5), ("R", 3), ("F", 1)]⟩ : Command).name
          (⟨"G83", [("X", 1), ("Y", 2), ("Z", -5), ("R", 3), ("F", 1)]⟩ : Command).parameters =
        .error (missingErr ⟨"G83", [("X", 1), ("Y", 2), ("Z", -5), ("R", 3), ("F", 1)]⟩)
      ∧ processCommand cfgNC initialState none ""
          ⟨"G83", [("X", 1), ("Y", 2), ("Z", -5), ("R", 3), ("F", 1)]⟩ =
        .error (missingErr ⟨"G83", [("X", 1), ("Y", 2), ("Z", -5), ("R", 3), ("F", 1)]⟩)
      ∧ exportRun cfgNC
          [.leaf "Op" [⟨"G83", [("X", 1), ("Y", 2), ("Z", -5), ("R", 3), ("F", 1)]⟩]]
          initialState "T" =
        .error (missingErr ⟨"G83", [("X", 1), ("Y", 2), ("Z", -5), ("R", 3), ("F", 1)]⟩)) :=
  ⟨by decide, by decide,
    C9_missing_param ⟨"G83", [("X", 1), ("Y", 2), ("Z", -5), ("R", 3), ("F", 1)]⟩
      cfgNC initialState [] none "" initialState "T" "Op" (by decide) (by decide)⟩

/-! ### C10 -/

/-- Configuration with line numbering enabled but header and comment output
disabled, to keep the demo export runs small. -/
def cfgNH : Cfg :=
  { defaultCfg with
      output_header := false
      output_comments := false }

/-- A small toolpath used to exercise `export` twice in a row. -/
def demoObjs : List PathNode :=
  [.leaf "Op" [⟨"G0", [("X", 1), ("Y", 2), ("Z", 3)]⟩]]

/-- The module state left by the first demo export run. -/
def demoS1 : MState :=
  ⟨70, 1, 2, 3, "G90", "G98", false, "G71", "mm", "mm/min"⟩

/-- Does `p` occur at the very start of `s`? -/
def strStartsWith (s p : String) : Bool :=
  listHasPref p.data s.data

set_option maxRecDepth 40000 in
/-- C10: `export` is not a deterministic function of its arguments across
calls in one process.  The line counter is part of the threaded module
state and is never reset by `export`: the first demo run (line numbering
enabled) starts numbering at the initial `LINENR = 10` and leaves the
counter at 70; calling `export` again with the identical arguments starts
numbering at N70 — continuing from the value the counter reached at the
end of the first call — leaves the counter at 130, and produces a
different output text. -/
theorem C10_linenr :
    exportRun cfgNH demoObjs initialState "T" =
      .ok ("N10 G71\nN20 G90\nN30 G71\nN40 G0 X1.000 Y2.000 Z3.000\nN50 M5\nN60 M2\n",
        demoS1)
    ∧ exportRun cfgNH demoObjs demoS1 "T" =
      .ok ("N70 G71\nN80 G90\nN90 G71\nN100 G0 X1.000 Y2.000 Z3.000\nN110 M5\nN120 M2\n",
        ⟨130, 1, 2, 3, "G90", "G98", false, "G71", "mm", "mm/min"⟩)
    ∧ demoS1.linenr = 70
    ∧ strStartsWith "N70 G71\nN80 G90\nN90 G71\nN100 G0 X1.000 Y2.000 Z3.000\nN110 M5\nN120 M2\n"
        ("N" ++ toString demoS1.linenr ++ " ") = true
    ∧ "N10 G71\nN20 G90\nN30 G71\nN40 G0 X1.000 Y2.000 Z3.000\nN50 M5\nN60 M2\n"
      ≠ "N70 G71\nN80 G90\nN90 G71\nN100 G0 X1.000 Y2.000 Z3.000\nN110 M5\nN120 M2\n" := by
  refine ⟨by decide, by decide, by decide, by decide, by decide⟩

end CharlyPost
